import Mathlib

/-!
Verification of the Auto-Email-Responder repository.

Shallow embedding of `src/email_responder/` (cache_manager.py,
retriever_chain.py, llm_response_chain.py, workflow.py, gmail_fetcher.py).
Python `datetime` values are modelled as natural numbers (an abstract
time unit), Python dictionaries as association lists, and calls to
external services (Gmail transport, the vector index, the generative
model) as explicit oracle parameters.  Python attribute lookup on the
project's own objects is modelled by a table of the attribute names the
class actually defines: looking up a name that is absent from the table
is an `AttributeError`, exactly as in CPython.
-/

set_option maxHeartbeats 1000000

/-- Association-list lookup (Python `dict` read / `in` test). -/
def assocFind {κ : Type} {β : Type} [DecidableEq κ] : List (κ × β) → κ → Option β
  | [], _ => none
  | (k, v) :: rest, key => if k = key then some v else assocFind rest key

/-- Association-list removal (Python `del d[k]` / Redis `delete`). -/
def assocErase {κ : Type} {β : Type} [DecidableEq κ] : List (κ × β) → κ → List (κ × β)
  | [], _ => []
  | (k, v) :: rest, key => if k = key then assocErase rest key else (k, v) :: assocErase rest key

/-- Association-list update (Python `d[k] = v` / Redis `setex`): replaces
any existing binding for the key. -/
def assocInsert {κ : Type} {β : Type} [DecidableEq κ] (l : List (κ × β)) (key : κ) (v : β) :
    List (κ × β) :=
  (key, v) :: assocErase l key

/-! ## cache_manager.py -/

/-- A cache entry: the stored value together with its creation timestamp
(`{'value': ..., 'timestamp': datetime.now().isoformat()}`). -/
structure CacheEntry (α : Type) where
  value : α
  timestamp : Nat
  deriving DecidableEq

/-- Cache keys.  `CacheManager._get_cache_key` builds
`f"{prefix}:{md5(data).hexdigest()}"`; we model the key as the pair
(prefix, data) itself, which is what the md5 digest stands for
(injective absent md5 collisions). -/
abbrev CKey := String × String

/-- The durable (Redis) tier: a reachability flag plus its store.  Any
operation against an unreachable client raises, which the Python code
catches. -/
structure RedisState (α : Type) where
  reachable : Bool
  store : List (CKey × CacheEntry α)
  deriving DecidableEq

/-- The full `CacheManager` state: optional Redis client plus the
in-memory dictionary `memory_cache`. -/
structure CacheState (α : Type) where
  redisClient : Option (RedisState α)
  memoryCache : List (CKey × CacheEntry α)
  deriving DecidableEq

namespace CacheManager

/-- `CacheManager._is_expired`: `datetime.now() > cache_time + timedelta(hours=ttl)`. -/
def isExpired (ttl now created : Nat) : Bool :=
  decide (now > created + ttl)

/-- `CacheManager.get`: Redis is tried first (a non-expired hit returns
immediately; an expired hit is deleted from Redis and the lookup falls
through; an unreachable client raises, which is caught), then the memory
cache (expired entries are deleted there too). -/
def get {α : Type} (ttl : Nat) (s : CacheState α) (now : Nat) (key : CKey) :
    Option α × CacheState α :=
  let redisStep : Option α × CacheState α :=
    match s.redisClient with
    | some r =>
      if r.reachable then
        match assocFind r.store key with
        | some e =>
          if !isExpired ttl now e.timestamp then (some e.value, s)
          else (none, { s with redisClient := some { r with store := assocErase r.store key } })
        | none => (none, s)
      else (none, s)
    | none => (none, s)
  match redisStep with
  | (some v, s1) => (some v, s1)
  | (none, s1) =>
    match assocFind s1.memoryCache key with
    | some e =>
      if !isExpired ttl now e.timestamp then (some e.value, s1)
      else (none, { s1 with memoryCache := assocErase s1.memoryCache key })
    | none => (none, s1)

/-- `CacheManager.set`: write to Redis when the client exists and is
reachable (a failure there is caught and logged), then always write the
memory cache.  The operation is total: it never raises. -/
def set {α : Type} (s : CacheState α) (now : Nat) (key : CKey) (v : α) : CacheState α :=
  let entry : CacheEntry α := ⟨v, now⟩
  let s1 : CacheState α :=
    match s.redisClient with
    | some r =>
      if r.reachable then { s with redisClient := some { r with store := assocInsert r.store key entry } }
      else s
    | none => s
  { s1 with memoryCache := assocInsert s1.memoryCache key entry }

/-- The attribute names the `CacheManager` class actually defines
(methods of cache_manager.py).  Python attribute lookup on the global
`cache_manager` instance succeeds exactly for these names. -/
def attrNames : List String :=
  ["memory_cache", "redis_client", "get", "set",
   "get_prompt_response", "set_prompt_response",
   "get_embedding", "set_embedding",
   "clear_cache", "test_connection", "get_cache_stats"]

/-- Python attribute lookup on the `cache_manager` instance: an absent
name raises `AttributeError`. -/
def getattr (name : String) : Except String String :=
  if attrNames.contains name then Except.ok name
  else Except.error ("AttributeError: 'CacheManager' object has no attribute '" ++ name ++ "'")

end CacheManager

/-! ## retriever_chain.py — IntentClassifier -/

/-- Does `needle` occur as a contiguous sublist of `hay`? -/
def subOccurs (needle : List Char) : List Char → Bool
  | [] => needle.isEmpty
  | c :: rest => needle.isPrefixOf (c :: rest) || subOccurs needle rest

/-- Python `kw in text` on strings: substring containment. -/
def containsSub (text kw : String) : Bool :=
  subOccurs kw.data text.data

/-- Python `str.lower()` (character-wise lowering). -/
def pyLower (s : String) : String :=
  String.mk (s.data.map Char.toLower)

/-- Python `str.strip()`: drop leading and trailing whitespace. -/
def pyStrip (s : String) : String :=
  String.mk (((s.data.dropWhile Char.isWhitespace).reverse.dropWhile Char.isWhitespace).reverse)

namespace IntentClassifier

/-- `IntentClassifier.INTENTS`, in declaration (dict-insertion) order. -/
def INTENTS : List (String × List String) :=
  [("billing", ["billing", "payment", "invoice", "refund", "subscription", "charge", "cost", "price"]),
   ("technical_support", ["error", "bug", "problem", "issue", "broken", "not working", "help", "technical"]),
   ("feature_request", ["feature", "request", "suggestion", "improvement", "new", "add", "enhancement"]),
   ("general", ["question", "info", "information", "contact", "hours", "address", "about"])]

/-- The intent names, in declaration order. -/
def intentNames : List String := INTENTS.map Prod.fst

/-- `sum(1 for keyword in keywords if keyword in text)`. -/
def kwScore (keywords : List String) (text : String) : Nat :=
  (keywords.filter (fun kw => containsSub text kw)).length

/-- Python `max(intent_scores, key=intent_scores.get)`: the first key
attaining the maximal value (Python's `max` keeps the current best on
ties, so the earliest maximal element wins). -/
def maxKeyByVal : List (String × Nat) → Option String
  | [] => none
  | p :: rest => some (rest.foldl (fun best q => if q.2 > best.2 then q else best) p).1

/-- `IntentClassifier.classify_intent`.  The generative fallback (lines
63-85) only runs when no keyword scores; its network call is modelled by
the oracle `llmResp` (`none` = no LLM configured or the call raised). -/
def classify_intent (email_subject email_body : String) (llmResp : Option String) : String :=
  let text := pyLower (email_subject ++ " " ++ email_body)
  let intent_scores :=
    INTENTS.filterMap (fun p =>
      let score := kwScore p.2 text
      if score > 0 then some (p.1, score) else none)
  match maxKeyByVal intent_scores with
  | some classified => classified
  | none =>
    match llmResp with
    | some resp =>
      let llm_intent := pyLower (pyStrip resp)
      if (INTENTS.map Prod.fst).contains llm_intent then llm_intent else "general"
    | none => "general"

/-- Modelled from the spec: "pick the intent with the highest nonzero
count; ties broken by enumeration order (first-declared intent wins)",
written out over the four declared intents (keyword sets as in
`INTENTS`). -/
def specClassify (email_subject email_body : String) : String :=
  let text := pyLower (email_subject ++ " " ++ email_body)
  let s1 := kwScore ["billing", "payment", "invoice", "refund", "subscription", "charge", "cost", "price"] text
  let s2 := kwScore ["error", "bug", "problem", "issue", "broken", "not working", "help", "technical"] text
  let s3 := kwScore ["feature", "request", "suggestion", "improvement", "new", "add", "enhancement"] text
  let s4 := kwScore ["question", "info", "information", "contact", "hours", "address", "about"] text
  if s1 = 0 ∧ s2 = 0 ∧ s3 = 0 ∧ s4 = 0 then "general"
  else if s1 ≥ s2 ∧ s1 ≥ s3 ∧ s1 ≥ s4 then "billing"
  else if s2 ≥ s3 ∧ s2 ≥ s4 then "technical_support"
  else if s3 ≥ s4 then "feature_request"
  else "general"

end IntentClassifier

/-! ## retriever_chain.py — PolicyRetriever ranking -/

/-- A LangChain `Document`, restricted to the pieces this code reads:
`page_content` and the `filename` metadata entry (`metadata.get("filename", "")`). -/
structure Document where
  page_content : String
  filename : String
  deriving DecidableEq

namespace PolicyRetriever

/-- Per-document intent score: count of intent keywords contained in the
lower-cased text, plus a bonus of 2 when any keyword occurs in the
lower-cased filename metadata. -/
def docScore (intentKeywords : List String) (doc : Document) : Nat :=
  let content_lower := pyLower doc.page_content
  let base := (intentKeywords.filter (fun kw => containsSub content_lower kw)).length
  let filename := pyLower doc.filename
  if intentKeywords.any (fun kw => containsSub filename kw) then base + 2 else base

/-- Insert into a descending-sorted scored list, after every element of
greater-or-equal score: the insertion step of a stable descending sort. -/
def insertDesc (p : Nat × Document) : List (Nat × Document) → List (Nat × Document)
  | [] => [p]
  | q :: rest => if q.1 ≥ p.1 then q :: insertDesc p rest else p :: q :: rest

/-- Stable descending sort by score: the model of Python's
`scored_docs.sort(key=lambda x: x[0], reverse=True)` (Timsort is stable;
with `reverse=True` equal keys keep their original relative order). -/
def stableSortDesc (l : List (Nat × Document)) : List (Nat × Document) :=
  l.foldl (fun acc p => insertDesc p acc) []

/-- `PolicyRetriever._rank_documents_by_intent`.  `topK` models
`config.top_k_docs` (default 5). -/
def rank_documents_by_intent (topK : Nat) (documents : List Document) (intent : String) :
    List Document :=
  if documents.isEmpty then documents
  else
    let intent_keywords := (assocFind IntentClassifier.INTENTS intent).getD []
    let scored_docs := documents.map (fun doc => (docScore intent_keywords doc, doc))
    let sorted_docs := stableSortDesc scored_docs
    let max_docs := min topK sorted_docs.length
    (sorted_docs.take max_docs).map Prod.snd

/-- `PolicyRetriever.retrieve_relevant_policies`.
`retrieverReady` models `self.retriever is not None`; `llmResp` is the
classifier's generative-fallback oracle; `retrieval` is the vector-index
oracle (`self.retriever.invoke(query)`, which may raise).  Line 259
evaluates `cache_manager.get_embeddings` — an attribute the
`CacheManager` class does not define — outside any `try`, so that lookup
is an uncaught `AttributeError`; the remainder of the body (lines
260-279) is dead code, modelled here under the impossible `ok` branch,
where the inner `try` catches both a raising retrieval and the equally
absent `set_embeddings` attribute. -/
def retrieve_relevant_policies (retrieverReady : Bool) (topK : Nat)
    (llmResp : Option String) (retrieval : String → Except String (List Document))
    (email_subject email_body : String) (intent? : Option String) :
    Except String (List Document × String) :=
  if !retrieverReady then Except.ok ([], "general")
  else
    let intent :=
      match intent? with
      | some i => if i.isEmpty then IntentClassifier.classify_intent email_subject email_body llmResp else i
      | none => IntentClassifier.classify_intent email_subject email_body llmResp
    let query := "Subject: " ++ email_subject ++ "\nContent: " ++ email_body
    match CacheManager.getattr "get_embeddings" with
    | Except.error e => Except.error e
    | Except.ok _ =>
      match retrieval query with
      | Except.error _ => Except.ok ([], intent)
      | Except.ok documents =>
        let ranked_docs := rank_documents_by_intent topK documents intent
        match CacheManager.getattr "set_embeddings" with
        | Except.error _ => Except.ok ([], intent)
        | Except.ok _ => Except.ok (ranked_docs, intent)

end PolicyRetriever

/-! ## llm_response_chain.py -/

namespace LLMResponseChain

/-- `LLMResponseChain._create_cache_key`: `f"{subject}|{body}"`, plus
`"|" + "|".join(doc.page_content[:100] for doc in context_docs[:3])`
when context documents are present. -/
def create_cache_key (email_subject email_body : String) (context_docs : List Document) : String :=
  let content := email_subject ++ "|" ++ email_body
  if context_docs.isEmpty then content
  else
    let context_content :=
      String.intercalate "|" ((context_docs.take 3).map (fun doc => String.mk (doc.page_content.data.take 100)))
    content ++ "|" ++ context_content

/-- `LLMResponseChain._generate_fallback_response`: the fixed apology
reply, personalised only with the sender name. -/
def generate_fallback_response (sender_name : String) : String :=
  "Dear " ++ sender_name ++ ",\n\n" ++
  "Thank you for contacting us. I've received your email and want to ensure you get the best possible assistance.\n\n" ++
  "I'm currently experiencing some technical difficulties in processing your specific request. To ensure you receive accurate and timely support, I'm forwarding your inquiry to our customer service team.\n\n" ++
  "You can expect a response from our team within 24 hours during business hours (Monday-Friday, 9 AM-6 PM EST).\n\n" ++
  "For urgent matters, please contact us directly at:\n- Phone: 1-800-555-0123\n- Email: support@company.com\n\n" ++
  "Thank you for your patience and understanding.\n\nBest regards,\nCustomer Service Team"

/-- `LLMResponseChain.generate_response`.  `chainReady` models
`self.chain is not None`; `cache` is the global cache manager's state
(the prompt tier uses keys with prefix `"prompt"`); `chainResult` is the
oracle for `self.chain.invoke(input_data)`: the sanitized (parsed)
output, or the exception it raised.  Returns the reply (if any) together
with the cache state after the call. -/
def generate_response (ttl : Nat) (chainReady : Bool) (cache : CacheState String) (now : Nat)
    (email_subject email_body sender_name : String) (context_documents : List Document)
    (chainResult : Except String String) : Option String × CacheState String :=
  if !chainReady then (none, cache)
  else
    let cache_key := create_cache_key email_subject email_body context_documents
    let lookup := CacheManager.get ttl cache now ("prompt", cache_key)
    let runChain : CacheState String → Option String × CacheState String := fun c =>
      match chainResult with
      | Except.error _ => (some (generate_fallback_response sender_name), c)
      | Except.ok response =>
        if response.isEmpty || (pyStrip response).length < 10 then
          (some (generate_fallback_response sender_name), c)
        else
          (some response, CacheManager.set c now ("prompt", cache_key) response)
    match lookup with
    | (some cached, c1) => if cached.isEmpty then runChain c1 else (some cached, c1)
    | (none, c1) => runChain c1

end LLMResponseChain

/-! ## gmail_fetcher.py — EmailData -/

/-- The `EmailData` dataclass of gmail_fetcher.py: its fields are `id`,
`subject`, `sender`, `sender_email`, `body`, `timestamp`, `thread_id`,
`labels` (there is no `sender_name` and no `message_id` field). -/
structure EmailData where
  id : String
  subject : String
  sender : String
  sender_email : String
  body : String
  timestamp : Nat
  thread_id : String
  labels : List String
  deriving DecidableEq

namespace EmailData

/-- The attribute names an `EmailData` instance actually has: the eight
dataclass fields plus the `to_dict` method. -/
def attrNames : List String :=
  ["id", "subject", "sender", "sender_email", "body", "timestamp", "thread_id", "labels", "to_dict"]

/-- Python attribute lookup on an `EmailData` instance: an absent name
raises `AttributeError`. -/
def getattr (name : String) : Except String String :=
  if attrNames.contains name then Except.ok name
  else Except.error ("AttributeError: 'EmailData' object has no attribute '" ++ name ++ "'")

end EmailData

/-! ## workflow.py -/

/-- The `EmailProcessingState` TypedDict of workflow.py. -/
structure WorkflowState where
  emails : List EmailData
  current_email : Option EmailData
  processed_count : Nat
  successful_responses : Nat
  failed_responses : Nat
  intent : Option String
  relevant_docs : List Document
  generated_response : Option String
  send_result : Option Bool
  last_error : Option String
  processing_log : List String
  deriving DecidableEq

/-- Python truthiness of the `generated_response` entry: `None` and the
empty string are falsy. -/
def truthyStr : Option String → Bool
  | none => false
  | some s => !s.isEmpty

/-- The external effects of one workflow run, as oracles:
* `fetchResult` — `gmail_fetcher.fetch_unread_emails` (its list, or the exception it raised);
* `retrieverReady` — whether `policy_retriever.retriever` was initialized;
* `topK` — `config.top_k_docs`;
* `llmResp` — the intent classifier's generative fallback;
* `retrieval` — the vector index, per query string;
* `generated` — `llm_response_chain.generate_response` per email (dead code: the
  `sender_name` attribute lookup raises first), and
* `transport` — `email_sender.send_response_email` per email. -/
structure Oracles where
  fetchResult : Except String (List EmailData)
  retrieverReady : Bool
  topK : Nat
  llmResp : Option String
  retrieval : String → Except String (List Document)
  generated : EmailData → Except String (Option String)
  transport : EmailData → Except String Bool

namespace EmailWorkflow

/-- `EmailWorkflow._fetch_emails`. -/
def fetch_emails (o : Oracles) (s : WorkflowState) : WorkflowState :=
  match o.fetchResult with
  | Except.ok emails =>
    { s with emails := emails, processed_count := 0, successful_responses := 0,
             failed_responses := 0,
             processing_log := ["Fetched " ++ toString emails.length ++ " unread emails"] }
  | Except.error e =>
    { s with last_error := some ("Failed to fetch emails: " ++ e), emails := [],
             processing_log := ["Failed to fetch emails: " ++ e] }

/-- `EmailWorkflow._should_process_emails`: `emails and len(emails) > 0`. -/
def should_process_emails (s : WorkflowState) : Bool :=
  !s.emails.isEmpty

/-- `EmailWorkflow._process_single_email`: when the cursor is in range,
select the email at `processed_count` and log it (the guarded body also
tries `gmail_fetcher.mark_as_read(current_email.message_id)`, which
raises `AttributeError` — `GmailFetcher` has no `mark_as_read` and
`EmailData` has no `message_id` — but that call sits in a `try` whose
handler only logs a warning, so it leaves the state unchanged). -/
def process_single_email (s : WorkflowState) : WorkflowState :=
  match s.emails[s.processed_count]? with
  | some current =>
    { s with current_email := some current,
             processing_log := s.processing_log ++
               ["Processing email " ++ toString (s.processed_count + 1) ++ "/" ++
                toString s.emails.length ++ ": " ++ current.subject] }
  | none => s

/-- `EmailWorkflow._retrieve_policies`: delegates to
`policy_retriever.retrieve_relevant_policies`; any exception from it is
caught, recorded in `last_error`, and replaced by `([], "general")`. -/
def retrieve_policies (o : Oracles) (s : WorkflowState) : WorkflowState :=
  match s.current_email with
  | none => { s with last_error := some "No current email to process" }
  | some ce =>
    match PolicyRetriever.retrieve_relevant_policies o.retrieverReady o.topK o.llmResp
        o.retrieval ce.subject ce.body none with
    | Except.ok (docs, intent) =>
      { s with relevant_docs := docs, intent := some intent,
               processing_log := s.processing_log ++
                 ["Retrieved " ++ toString docs.length ++ " relevant documents for intent: " ++ intent] }
    | Except.error e =>
      { s with last_error := some ("Failed to retrieve policies: " ++ e),
               relevant_docs := [], intent := some "general" }

/-- `EmailWorkflow._generate_response`: line 211 evaluates
`current_email.sender_name` before anything is sent to the response
chain; `EmailData` defines no `sender_name` attribute, so the lookup
raises `AttributeError`, the handler records the error and sets
`generated_response` to `None`.  The `ok` branch (dead code) models
lines 208-227 with the chain call as an oracle. -/
def generate_response (o : Oracles) (s : WorkflowState) : WorkflowState :=
  match s.current_email with
  | none => { s with last_error := some "No current email to generate response for" }
  | some ce =>
    match EmailData.getattr "sender_name" with
    | Except.error e =>
      { s with last_error := some ("Failed to generate response: " ++ e),
               generated_response := none }
    | Except.ok _ =>
      match o.generated ce with
      | Except.ok response =>
        let s1 := { s with generated_response := response }
        if truthyStr response then
          { s1 with processing_log := s1.processing_log ++ ["Generated response"] }
        else
          { s1 with last_error := some "LLM failed to generate response",
                    processing_log := s1.processing_log ++ ["Failed to generate response"] }
      | Except.error e =>
        { s with last_error := some ("Failed to generate response: " ++ e),
                 generated_response := none }

/-- `EmailWorkflow._send_response`: with no current email or no truthy
generated response, record `"Missing email or response for sending"` and
count a failure without touching the transport; otherwise invoke the
transport and record the outcome. -/
def send_response (o : Oracles) (s : WorkflowState) : WorkflowState :=
  match s.current_email, (if truthyStr s.generated_response then s.generated_response else none) with
  | some ce, some _ =>
    match o.transport ce with
    | Except.ok true =>
      { s with successful_responses := s.successful_responses + 1,
               processing_log := s.processing_log ++
                 ["Successfully sent response to " ++ ce.sender_email],
               send_result := some true }
    | Except.ok false =>
      { s with failed_responses := s.failed_responses + 1,
               last_error := some "Email sending failed",
               processing_log := s.processing_log ++
                 ["Failed to send response to " ++ ce.sender_email],
               send_result := some false }
    | Except.error e =>
      { s with last_error := some ("Error sending response: " ++ e),
               failed_responses := s.failed_responses + 1 }
  | _, _ =>
    { s with last_error := some "Missing email or response for sending",
             failed_responses := s.failed_responses + 1 }

/-- `EmailWorkflow._next_email`. -/
def next_email (s : WorkflowState) : WorkflowState :=
  { s with processed_count := s.processed_count + 1,
           current_email := none, intent := none, relevant_docs := [],
           generated_response := none, send_result := none, last_error := none }

/-- `EmailWorkflow._should_continue_processing`: compares the cursor
*before* it is incremented against the batch length. -/
def should_continue_processing (s : WorkflowState) : Bool :=
  s.processed_count < s.emails.length

/-- `EmailWorkflow._finalize_processing`: appends the summary line. -/
def finalize_processing (s : WorkflowState) : WorkflowState :=
  { s with processing_log := s.processing_log ++
      ["Processing complete: " ++ toString s.successful_responses ++ " successful, " ++
       toString s.failed_responses ++ " failed out of " ++ toString s.emails.length ++ " emails"] }

/-- One pass of the graph's processing cycle:
`process_email → retrieve_policies → generate_response → send_response`. -/
def loopStep (o : Oracles) (s : WorkflowState) : WorkflowState :=
  send_response o (generate_response o (retrieve_policies o (process_single_email s)))

/-- The graph's loop after `fetch_emails` chose `"process"`: run a pass,
then either continue through `next_email` or finalize.  The fuel
argument only bounds the recursion; `emails.length + 1` passes always
suffice, because every continuing pass is followed by a cursor
increment. -/
def runFrom (o : Oracles) : Nat → WorkflowState → WorkflowState
  | 0, s => finalize_processing s
  | fuel + 1, s =>
    let s1 := loopStep o s
    if should_continue_processing s1 then runFrom o fuel (next_email s1)
    else finalize_processing s1

/-- The initial `EmailProcessingState` built by `process_emails`. -/
def initialState : WorkflowState :=
  { emails := [], current_email := none, processed_count := 0,
    successful_responses := 0, failed_responses := 0, intent := none,
    relevant_docs := [], generated_response := none, send_result := none,
    last_error := none, processing_log := [] }

/-- The dictionary returned by `EmailWorkflow.process_emails`. -/
structure RunResult where
  success : Bool
  total_emails : Nat
  successful_responses : Nat
  failed_responses : Nat
  processing_log : List String
  last_error : Option String
  deriving DecidableEq

/-- `EmailWorkflow.process_emails`: the compiled graph run on the
initial state, with the final state projected into the result
dictionary. -/
def process_emails (o : Oracles) : RunResult :=
  let s1 := fetch_emails o initialState
  let final :=
    if should_process_emails s1 then runFrom o (s1.emails.length + 1) s1
    else finalize_processing s1
  { success := true,
    total_emails := final.emails.length,
    successful_responses := final.successful_responses,
    failed_responses := final.failed_responses,
    processing_log := final.processing_log,
    last_error := final.last_error }

end EmailWorkflow

/-! ## Helper lemmas: association lists and the cache -/

theorem assocFind_erase_self {κ β : Type} [DecidableEq κ] (l : List (κ × β)) (k : κ) :
    assocFind (assocErase l k) k = none := by
  induction l with
  | nil => rfl
  | cons p rest ih =>
    obtain ⟨k', v⟩ := p
    by_cases h : k' = k
    · simp [assocErase, h, ih]
    · simp [assocErase, assocFind, h, ih]

theorem assocFind_insert_self {κ β : Type} [DecidableEq κ] (l : List (κ × β)) (k : κ) (v : β) :
    assocFind (assocInsert l k v) k = some v := by
  simp [assocInsert, assocFind]

theorem get_after_set {α : Type} (ttl now now' : Nat) (s : CacheState α) (key : CKey) (v : α)
    (h : now' ≤ now + ttl) :
    (CacheManager.get ttl (CacheManager.set s now key v) now' key).1 = some v := by
  obtain ⟨rc, mem⟩ := s
  have hexp : CacheManager.isExpired ttl now' now = false := by
    simp [CacheManager.isExpired, Nat.not_lt.mpr h]
  cases rc with
  | none =>
    simp [CacheManager.set, CacheManager.get, assocFind_insert_self, hexp]
  | some r =>
    cases hr : r.reachable with
    | true =>
      simp [CacheManager.set, CacheManager.get, hr, assocFind_insert_self, hexp]
    | false =>
      simp [CacheManager.set, CacheManager.get, hr, assocFind_insert_self, hexp]

theorem get_none_stable {α : Type} (ttl now : Nat) (s : CacheState α) (key : CKey)
    (h : (CacheManager.get ttl s now key).1 = none) :
    (CacheManager.get ttl (CacheManager.get ttl s now key).2 now key).1 = none := by
  obtain ⟨rc, mem⟩ := s
  cases rc with
  | none =>
    cases hm : assocFind mem key with
    | none => simp [CacheManager.get, hm]
    | some e =>
      cases hexp : CacheManager.isExpired ttl now e.timestamp with
      | false => simp [CacheManager.get, hm, hexp] at h
      | true => simp [CacheManager.get, hm, hexp, assocFind_erase_self]
  | some r =>
    cases hr : r.reachable with
    | false =>
      cases hm : assocFind mem key with
      | none => simp [CacheManager.get, hr, hm]
      | some e =>
        cases hexp : CacheManager.isExpired ttl now e.timestamp with
        | false => simp [CacheManager.get, hr, hm, hexp] at h
        | true => simp [CacheManager.get, hr, hm, hexp, assocFind_erase_self]
    | true =>
      cases hst : assocFind r.store key with
      | none =>
        cases hm : assocFind mem key with
        | none => simp [CacheManager.get, hr, hst, hm]
        | some e =>
          cases hexp : CacheManager.isExpired ttl now e.timestamp with
          | false => simp [CacheManager.get, hr, hst, hm, hexp] at h
          | true => simp [CacheManager.get, hr, hst, hm, hexp, assocFind_erase_self]
      | some e =>
        cases hexp : CacheManager.isExpired ttl now e.timestamp with
        | false => simp [CacheManager.get, hr, hst, hexp] at h
        | true =>
          cases hm : assocFind mem key with
          | none => simp [CacheManager.get, hr, hst, hm, hexp, assocFind_erase_self]
          | some em =>
            cases hexpm : CacheManager.isExpired ttl now em.timestamp with
            | false => simp [CacheManager.get, hr, hst, hm, hexp, hexpm] at h
            | true => simp [CacheManager.get, hr, hst, hm, hexp, hexpm, assocFind_erase_self]

/-! ## Claims about the cache (C6, C7) -/

/-- C7: for a stored entry, `CacheManager.get` returns the stored value
iff `now ≤ created + ttl`; when `now > created + ttl` it reports the
entry absent and deletes it from the tier where it was found (Redis in
the first conjunct, memory in the second); and `CacheManager.set` is
total and always records the entry in the memory tier, even when the
durable tier is configured but unreachable. -/
theorem claim_C7_ttl_and_set :
    (∀ (ttl now c : Nat) (v : String) (r : RedisState String)
       (mem : List (CKey × CacheEntry String)) (key : CKey),
       r.reachable = true →
       assocFind r.store key = some ⟨v, c⟩ →
       assocFind mem key = none →
       ((CacheManager.get ttl ⟨some r, mem⟩ now key).1 = some v ↔ now ≤ c + ttl) ∧
       (c + ttl < now →
         (CacheManager.get ttl ⟨some r, mem⟩ now key).1 = none ∧
         ∃ r1, (CacheManager.get ttl ⟨some r, mem⟩ now key).2.redisClient = some r1 ∧
               assocFind r1.store key = none)) ∧
    (∀ (ttl now c : Nat) (v : String) (mem : List (CKey × CacheEntry String)) (key : CKey),
       assocFind mem key = some ⟨v, c⟩ →
       ((CacheManager.get ttl ⟨none, mem⟩ now key).1 = some v ↔ now ≤ c + ttl) ∧
       (c + ttl < now →
         (CacheManager.get ttl ⟨none, mem⟩ now key).1 = none ∧
         assocFind (CacheManager.get ttl ⟨none, mem⟩ now key).2.memoryCache key = none)) ∧
    (∀ (s : CacheState String) (now : Nat) (key : CKey) (v : String),
       assocFind (CacheManager.set s now key v).memoryCache key = some ⟨v, now⟩) := by
  refine ⟨?_, ?_, ?_⟩
  · intro ttl now c v r mem key hr hst hm
    by_cases hle : now ≤ c + ttl
    · have hexp : CacheManager.isExpired ttl now c = false := by
        simp [CacheManager.isExpired, Nat.not_lt.mpr hle]
      constructor
      · simp [CacheManager.get, hr, hst, hm, hexp, hle]
      · intro hgt; omega
    · have hgt : c + ttl < now := Nat.lt_of_not_le hle
      have hexp : CacheManager.isExpired ttl now c = true := by
        simp [CacheManager.isExpired, hgt]
      constructor
      · simp [CacheManager.get, hr, hst, hm, hexp, hle]
      · intro _
        refine ⟨?_, ⟨{ r with store := assocErase r.store key }, ?_, ?_⟩⟩
        · simp [CacheManager.get, hr, hst, hm, hexp]
        · simp [CacheManager.get, hr, hst, hm, hexp]
        · exact assocFind_erase_self _ _
  · intro ttl now c v mem key hm
    by_cases hle : now ≤ c + ttl
    · have hexp : CacheManager.isExpired ttl now c = false := by
        simp [CacheManager.isExpired, Nat.not_lt.mpr hle]
      constructor
      · simp [CacheManager.get, hm, hexp, hle]
      · intro hgt; omega
    · have hgt : c + ttl < now := Nat.lt_of_not_le hle
      have hexp : CacheManager.isExpired ttl now c = true := by
        simp [CacheManager.isExpired, hgt]
      constructor
      · simp [CacheManager.get, hm, hexp, hle]
      · intro _
        constructor
        · simp [CacheManager.get, hm, hexp]
        · simp [CacheManager.get, hm, hexp, assocFind_erase_self]
  · intro s now key v
    obtain ⟨rc, mem⟩ := s
    cases rc with
    | none => simp [CacheManager.set, assocFind_insert_self]
    | some r =>
      cases hr : r.reachable with
      | true => simp [CacheManager.set, hr, assocFind_insert_self]
      | false => simp [CacheManager.set, hr, assocFind_insert_self]

/-- Witness for C7: a Redis-tier entry created at time 0 with ttl 10 is
returned at time 10 and reported absent (and deleted) at time 11; a set
against an unreachable Redis still lands in the memory tier. -/
theorem claim_C7_ttl_and_set_witness :
    ((CacheManager.get 10 ⟨some ⟨true, [(("p", "k"), ⟨"v", 0⟩)]⟩, []⟩ 10 ("p", "k")).1 = some "v"
       ↔ (10 : Nat) ≤ 0 + 10) ∧
    ((CacheManager.get 10 ⟨some ⟨true, [(("p", "k"), ⟨"v", 0⟩)]⟩, []⟩ 11 ("p", "k")).1 = none) ∧
    (assocFind (CacheManager.set (⟨some ⟨false, []⟩, []⟩ : CacheState String) 3 ("p", "k") "w").memoryCache
       ("p", "k") = some ⟨"w", 3⟩) := by
  have h1 := (claim_C7_ttl_and_set.1 10 10 0 "v" ⟨true, [(("p", "k"), ⟨"v", 0⟩)]⟩ []
    ("p", "k") rfl (by decide) rfl).1
  have h2 := ((claim_C7_ttl_and_set.1 10 11 0 "v" ⟨true, [(("p", "k"), ⟨"v", 0⟩)]⟩ []
    ("p", "k") rfl (by decide) rfl).2 (by decide)).1
  have h3 := claim_C7_ttl_and_set.2.2 (⟨some ⟨false, []⟩, []⟩ : CacheState String) 3 ("p", "k") "w"
  exact ⟨h1, h2, h3⟩

/-- C6 counterexample: the durable tier (reachable) holds a fresh entry
for a key the volatile tier does not have.  `get` returns the value, but
the volatile tier of the resulting state is still empty, so repeating
the `get` on that state after the durable tier has become unreachable
yields nothing — refuting "get also populates the volatile in-memory
tier with that entry before returning the value". -/
theorem claim_C6_counterexample :
    (CacheManager.get 10 (⟨some ⟨true, [(("embedding", "k"), ⟨"v", 0⟩)]⟩, []⟩ : CacheState String)
        0 ("embedding", "k")).1 = some "v" ∧
    (CacheManager.get 10 (⟨some ⟨true, [(("embedding", "k"), ⟨"v", 0⟩)]⟩, []⟩ : CacheState String)
        0 ("embedding", "k")).2.memoryCache = [] ∧
    (CacheManager.get 10 (⟨some ⟨false, [(("embedding", "k"), ⟨"v", 0⟩)]⟩, []⟩ : CacheState String)
        0 ("embedding", "k")).1 = none := by
  decide

/-- C6 as amended: a non-expired durable hit returns the cached value
with the whole state — in particular the volatile tier — unchanged; the
volatile tier is populated only by `set`, which always writes it, so the
volatile tier serves a later read (while the durable tier is down) only
for entries that went through `set`. -/
theorem claim_C6_amended :
    (∀ (ttl now c : Nat) (v : String) (st : List (CKey × CacheEntry String))
       (mem : List (CKey × CacheEntry String)) (key : CKey),
       assocFind st key = some ⟨v, c⟩ → now ≤ c + ttl →
       CacheManager.get ttl ⟨some ⟨true, st⟩, mem⟩ now key = (some v, ⟨some ⟨true, st⟩, mem⟩)) ∧
    (∀ (ttl : Nat) (s : CacheState String) (now now' : Nat) (key : CKey) (v : String),
       now' ≤ now + ttl →
       assocFind (CacheManager.set s now key v).memoryCache key = some ⟨v, now⟩ ∧
       (CacheManager.get ttl
         ⟨some ⟨false, []⟩, (CacheManager.set s now key v).memoryCache⟩ now' key).1 = some v) := by
  have set_mem : ∀ (s : CacheState String) (now : Nat) (key : CKey) (v : String),
      (CacheManager.set s now key v).memoryCache = assocInsert s.memoryCache key ⟨v, now⟩ := by
    intro s now key v
    obtain ⟨rc, mem⟩ := s
    cases rc with
    | none => rfl
    | some r =>
      cases hr : r.reachable with
      | true => simp [CacheManager.set, hr]
      | false => simp [CacheManager.set, hr]
  constructor
  · intro ttl now c v st mem key hst hle
    have hexp : CacheManager.isExpired ttl now c = false := by
      simp [CacheManager.isExpired, Nat.not_lt.mpr hle]
    simp [CacheManager.get, hst, hexp]
  · intro ttl s now now' key v h
    have hexp : CacheManager.isExpired ttl now' now = false := by
      simp [CacheManager.isExpired, Nat.not_lt.mpr h]
    refine ⟨?_, ?_⟩
    · rw [set_mem]; exact assocFind_insert_self _ _ _
    · simp [CacheManager.get, set_mem, assocFind_insert_self, hexp]

/-- Witness for the amended C6: a reachable durable hit at ttl 10 /
time 3 returns the value and leaves the state untouched, and a set at
time 0 is served from the volatile tier at time 5 while the durable tier
is unreachable. -/
theorem claim_C6_amended_witness :
    CacheManager.get 10 (⟨some ⟨true, [(("p", "k"), ⟨"v", 0⟩)]⟩, []⟩ : CacheState String)
        3 ("p", "k") =
      (some "v", (⟨some ⟨true, [(("p", "k"), ⟨"v", 0⟩)]⟩, []⟩ : CacheState String)) ∧
    (CacheManager.get 10
      ⟨some ⟨false, []⟩,
       (CacheManager.set (⟨some ⟨false, []⟩, []⟩ : CacheState String) 0 ("p", "k") "w").memoryCache⟩
      5 ("p", "k")).1 = some "w" := by
  have h1 := claim_C6_amended.1 10 3 0 "v" [(("p", "k"), ⟨"v", 0⟩)] [] ("p", "k")
    (by decide) (by decide)
  have h2 := (claim_C6_amended.2 10 (⟨some ⟨false, []⟩, []⟩ : CacheState String) 0 5
    ("p", "k") "w" (by decide)).2
  exact ⟨h1, h2⟩

/-! ## Claim about the response generator (C10) -/

/-- C10: starting from a prompt-cache miss, a raising generation call or
a sanitized output that is empty or shorter than 10 characters makes
`generate_response` return the fixed fallback reply with the cache left
exactly as the lookup left it, so the same lookup still misses (a
subsequent identical call would invoke generation again); a usable reply
is cached (and a lookup within ttl finds it) before being returned. -/
theorem claim_C10_fallback_not_cached :
    ∀ (ttl : Nat) (cache : CacheState String) (now : Nat)
      (subject body sender : String) (ctx : List Document),
      (CacheManager.get ttl cache now
        ("prompt", LLMResponseChain.create_cache_key subject body ctx)).1 = none →
      (∀ e : String,
        LLMResponseChain.generate_response ttl true cache now subject body sender ctx
            (Except.error e) =
          (some (LLMResponseChain.generate_fallback_response sender),
           (CacheManager.get ttl cache now
             ("prompt", LLMResponseChain.create_cache_key subject body ctx)).2) ∧
        (CacheManager.get ttl
          (LLMResponseChain.generate_response ttl true cache now subject body sender ctx
            (Except.error e)).2 now
          ("prompt", LLMResponseChain.create_cache_key subject body ctx)).1 = none) ∧
      (∀ resp : String, (resp.isEmpty || (pyStrip resp).length < 10) = true →
        LLMResponseChain.generate_response ttl true cache now subject body sender ctx
            (Except.ok resp) =
          (some (LLMResponseChain.generate_fallback_response sender),
           (CacheManager.get ttl cache now
             ("prompt", LLMResponseChain.create_cache_key subject body ctx)).2) ∧
        (CacheManager.get ttl
          (LLMResponseChain.generate_response ttl true cache now subject body sender ctx
            (Except.ok resp)).2 now
          ("prompt", LLMResponseChain.create_cache_key subject body ctx)).1 = none) ∧
      (∀ resp : String, resp.isEmpty = false → 10 ≤ (pyStrip resp).length →
        LLMResponseChain.generate_response ttl true cache now subject body sender ctx
            (Except.ok resp) =
          (some resp,
           CacheManager.set
             (CacheManager.get ttl cache now
               ("prompt", LLMResponseChain.create_cache_key subject body ctx)).2 now
             ("prompt", LLMResponseChain.create_cache_key subject body ctx) resp) ∧
        (CacheManager.get ttl
          (LLMResponseChain.generate_response ttl true cache now subject body sender ctx
            (Except.ok resp)).2 now
          ("prompt", LLMResponseChain.create_cache_key subject body ctx)).1 = some resp) := by
  intro ttl cache now subject body sender ctx hmiss
  have hstable := get_none_stable ttl now cache
    ("prompt", LLMResponseChain.create_cache_key subject body ctx) hmiss
  rcases hg : CacheManager.get ttl cache now
      ("prompt", LLMResponseChain.create_cache_key subject body ctx) with ⟨g1, g2⟩
  rw [hg] at hmiss hstable
  have hg1 : g1 = none := hmiss
  subst hg1
  refine ⟨?_, ?_, ?_⟩
  · intro e
    have hres : LLMResponseChain.generate_response ttl true cache now subject body sender ctx
        (Except.error e) =
        (some (LLMResponseChain.generate_fallback_response sender), g2) := by
      simp only [LLMResponseChain.generate_response]
      rw [hg]
      rfl
    refine ⟨hres, ?_⟩
    rw [hres]
    exact hstable
  · intro resp hshort
    have hres : LLMResponseChain.generate_response ttl true cache now subject body sender ctx
        (Except.ok resp) =
        (some (LLMResponseChain.generate_fallback_response sender), g2) := by
      simp only [LLMResponseChain.generate_response]
      rw [hg]
      simp [hshort]
    refine ⟨hres, ?_⟩
    rw [hres]
    exact hstable
  · intro resp hne hlen
    have hres : LLMResponseChain.generate_response ttl true cache now subject body sender ctx
        (Except.ok resp) =
        (some resp,
         CacheManager.set g2 now ("prompt", LLMResponseChain.create_cache_key subject body ctx) resp) := by
      simp only [LLMResponseChain.generate_response]
      rw [hg]
      simp [hne, Nat.not_lt.mpr hlen]
    refine ⟨hres, ?_⟩
    rw [hres]
    exact get_after_set ttl now now g2 _ resp (Nat.le_add_right now ttl)

/-- Witness for C10: from an empty cache, a raising generation call
yields the fallback and leaves the cache empty (the same lookup still
misses), while a usable reply is found in the cache afterwards. -/
theorem claim_C10_fallback_not_cached_witness :
    LLMResponseChain.generate_response 24 true (⟨none, []⟩ : CacheState String) 0 "S" "B" "Ann" []
        (Except.error "boom") =
      (some (LLMResponseChain.generate_fallback_response "Ann"), (⟨none, []⟩ : CacheState String)) ∧
    (CacheManager.get 24
      (LLMResponseChain.generate_response 24 true (⟨none, []⟩ : CacheState String) 0 "S" "B" "Ann" []
        (Except.error "boom")).2 0 ("prompt", LLMResponseChain.create_cache_key "S" "B" [])).1 =
      none ∧
    (CacheManager.get 24
      (LLMResponseChain.generate_response 24 true (⟨none, []⟩ : CacheState String) 0 "S" "B" "Ann" []
        (Except.ok "Thanks for reaching out.")).2 0
      ("prompt", LLMResponseChain.create_cache_key "S" "B" [])).1 =
      some "Thanks for reaching out." := by
  have h := claim_C10_fallback_not_cached 24 (⟨none, []⟩ : CacheState String) 0 "S" "B" "Ann" []
    (by decide)
  exact ⟨(h.1 "boom").1, (h.1 "boom").2,
    (h.2.2 "Thanks for reaching out." (by decide) (by decide)).2⟩

/-! ## Claims about the policy retriever (C4, C5) -/

/-- C4 (code bug): whenever the retriever is initialized,
`retrieve_relevant_policies` raises `AttributeError` — line 259 reads
`cache_manager.get_embeddings`, an attribute `CacheManager` does not
define, outside any `try` — for every subject, body, optional intent and
index behaviour, instead of "never raising".  Only the
retriever-not-initialized path returns without error, and there it
returns `([], "general")` regardless of the resolved intent. -/
theorem claim_C4_attribute_error :
    (∀ (topK : Nat) (llmResp : Option String)
       (retrieval : String → Except String (List Document))
       (subject body : String) (intent? : Option String),
       PolicyRetriever.retrieve_relevant_policies true topK llmResp retrieval subject body intent? =
         Except.error "AttributeError: 'CacheManager' object has no attribute 'get_embeddings'") ∧
    (∀ (topK : Nat) (llmResp : Option String)
       (retrieval : String → Except String (List Document))
       (subject body : String) (intent? : Option String),
       PolicyRetriever.retrieve_relevant_policies false topK llmResp retrieval subject body intent? =
         Except.ok ([], "general")) := by
  constructor
  · intro topK llmResp retrieval subject body intent?
    rfl
  · intro topK llmResp retrieval subject body intent?
    rfl

/-- C5 (code bug): the cache interaction of
`retrieve_relevant_policies` never happens.  At the failing input
(retriever initialized, subject "Refund request", body "please help",
index returning one billing fragment) the call raises `AttributeError`
at the cache lookup; and both cache accessors the code names —
`get_embeddings` / `set_embeddings` — are absent from `CacheManager`,
whose actual accessors are the singular `get_embedding` /
`set_embedding`. -/
theorem claim_C5_cache_never_used :
    PolicyRetriever.retrieve_relevant_policies true 5 none
        (fun _ => Except.ok [⟨"billing refund", "billing.md"⟩]) "Refund request" "please help"
        none =
      Except.error "AttributeError: 'CacheManager' object has no attribute 'get_embeddings'" ∧
    CacheManager.getattr "set_embeddings" =
      Except.error "AttributeError: 'CacheManager' object has no attribute 'set_embeddings'" ∧
    CacheManager.getattr "get_embedding" = Except.ok "get_embedding" ∧
    CacheManager.getattr "set_embedding" = Except.ok "set_embedding" := by
  refine ⟨rfl, rfl, rfl, rfl⟩

/-! ## Claims about the workflow (C1, C2, C3) -/

/-- C1 (code bug): the spec's end-to-end scenario — two fetched emails,
transport succeeding on the first and returning false on the second —
does not produce `{successful: 1, failed: 1, total: 2}`.  The run
evaluates to 0 successful and 3 failed responses out of 2 emails (the
`sender_name` attribute error kills generation for both real emails and
the cursor off-by-one adds a third, ghost `SEND` failure), and the log
contains no line matching "1 successful, 1 failed out of 2 emails". -/
theorem claim_C1_end_to_end_scenario :
    EmailWorkflow.process_emails
      { fetchResult := Except.ok
          [⟨"1", "Hello", "Alice", "alice@example.com", "Hi there", 0, "t1", []⟩,
           ⟨"2", "Question", "Bob", "bob@example.com", "About hours", 0, "t2", []⟩],
        retrieverReady := true, topK := 5, llmResp := none,
        retrieval := fun _ => Except.ok [],
        generated := fun _ => Except.ok (some "A long enough generated reply."),
        transport := fun e => Except.ok (e.id == "1") } =
      { success := true, total_emails := 2, successful_responses := 0, failed_responses := 3,
        processing_log :=
          ["Fetched 2 unread emails", "Processing email 1/2: Hello",
           "Processing email 2/2: Question",
           "Processing complete: 0 successful, 3 failed out of 2 emails"],
        last_error := some "Missing email or response for sending" } ∧
    ((EmailWorkflow.process_emails
      { fetchResult := Except.ok
          [⟨"1", "Hello", "Alice", "alice@example.com", "Hi there", 0, "t1", []⟩,
           ⟨"2", "Question", "Bob", "bob@example.com", "About hours", 0, "t2", []⟩],
        retrieverReady := true, topK := 5, llmResp := none,
        retrieval := fun _ => Except.ok [],
        generated := fun _ => Except.ok (some "A long enough generated reply."),
        transport := fun e => Except.ok (e.id == "1") }).processing_log.filter
        (fun line => containsSub line "1 successful, 1 failed out of 2 emails")).length = 0 := by
  exact ⟨rfl, rfl⟩

/-- Looking up `sender_name` on an `EmailData` instance raises. -/
theorem getattr_sender_name :
    EmailData.getattr "sender_name" =
      Except.error "AttributeError: 'EmailData' object has no attribute 'sender_name'" := rfl

theorem process_single_email_proj (s : WorkflowState) :
    (EmailWorkflow.process_single_email s).emails = s.emails ∧
    (EmailWorkflow.process_single_email s).processed_count = s.processed_count ∧
    (EmailWorkflow.process_single_email s).successful_responses = s.successful_responses ∧
    (EmailWorkflow.process_single_email s).failed_responses = s.failed_responses ∧
    (EmailWorkflow.process_single_email s).generated_response = s.generated_response := by
  cases h : s.emails[s.processed_count]? with
  | none => simp [EmailWorkflow.process_single_email, h]
  | some current => simp [EmailWorkflow.process_single_email, h]

theorem retrieve_policies_proj (o : Oracles) (s : WorkflowState) :
    (EmailWorkflow.retrieve_policies o s).emails = s.emails ∧
    (EmailWorkflow.retrieve_policies o s).processed_count = s.processed_count ∧
    (EmailWorkflow.retrieve_policies o s).successful_responses = s.successful_responses ∧
    (EmailWorkflow.retrieve_policies o s).failed_responses = s.failed_responses ∧
    (EmailWorkflow.retrieve_policies o s).generated_response = s.generated_response := by
  cases hc : s.current_email with
  | none => simp [EmailWorkflow.retrieve_policies, hc]
  | some ce =>
    cases hr : PolicyRetriever.retrieve_relevant_policies o.retrieverReady o.topK o.llmResp
        o.retrieval ce.subject ce.body none with
    | ok p =>
      obtain ⟨docs, intent⟩ := p
      simp [EmailWorkflow.retrieve_policies, hc, hr]
    | error e => simp [EmailWorkflow.retrieve_policies, hc, hr]

/-- C2's core: with a current email present, the GENERATE node always
takes the exception path of the `sender_name` lookup. -/
theorem generate_response_of_some (o : Oracles) (s : WorkflowState) (ce : EmailData)
    (h : s.current_email = some ce) :
    EmailWorkflow.generate_response o s =
      { s with
        last_error :=
          some "Failed to generate response: AttributeError: 'EmailData' object has no attribute 'sender_name'",
        generated_response := none } := by
  unfold EmailWorkflow.generate_response
  rw [h]
  rfl

theorem generate_response_proj (o : Oracles) (s : WorkflowState) :
    (EmailWorkflow.generate_response o s).emails = s.emails ∧
    (EmailWorkflow.generate_response o s).processed_count = s.processed_count ∧
    (EmailWorkflow.generate_response o s).successful_responses = s.successful_responses ∧
    (EmailWorkflow.generate_response o s).failed_responses = s.failed_responses ∧
    (s.generated_response = none → (EmailWorkflow.generate_response o s).generated_response = none) := by
  cases hc : s.current_email with
  | none => simp [EmailWorkflow.generate_response, hc]
  | some ce => rw [generate_response_of_some o s ce hc]; simp

theorem send_response_missing (o : Oracles) (s : WorkflowState)
    (h : s.generated_response = none) :
    EmailWorkflow.send_response o s =
      { s with last_error := some "Missing email or response for sending",
               failed_responses := s.failed_responses + 1 } := by
  cases hc : s.current_email with
  | none => simp [EmailWorkflow.send_response, hc, h, truthyStr]
  | some ce => simp [EmailWorkflow.send_response, hc, h, truthyStr]

theorem loopStep_proj (o : Oracles) (s : WorkflowState) (hg : s.generated_response = none) :
    (EmailWorkflow.loopStep o s).emails = s.emails ∧
    (EmailWorkflow.loopStep o s).processed_count = s.processed_count ∧
    (EmailWorkflow.loopStep o s).successful_responses = s.successful_responses ∧
    (EmailWorkflow.loopStep o s).failed_responses = s.failed_responses + 1 ∧
    (EmailWorkflow.loopStep o s).generated_response = none ∧
    (EmailWorkflow.loopStep o s).last_error = some "Missing email or response for sending" := by
  have h1 := process_single_email_proj s
  have h2 := retrieve_policies_proj o (EmailWorkflow.process_single_email s)
  have h3 := generate_response_proj o
    (EmailWorkflow.retrieve_policies o (EmailWorkflow.process_single_email s))
  have hg3 : (EmailWorkflow.generate_response o (EmailWorkflow.retrieve_policies o
      (EmailWorkflow.process_single_email s))).generated_response = none := by
    apply h3.2.2.2.2
    rw [h2.2.2.2.2, h1.2.2.2.2]
    exact hg
  have hstep : EmailWorkflow.loopStep o s =
      EmailWorkflow.send_response o (EmailWorkflow.generate_response o
        (EmailWorkflow.retrieve_policies o (EmailWorkflow.process_single_email s))) := rfl
  rw [hstep, send_response_missing o _ hg3]
  have he : (EmailWorkflow.generate_response o (EmailWorkflow.retrieve_policies o
      (EmailWorkflow.process_single_email s))).emails = s.emails := by
    rw [h3.1, h2.1, h1.1]
  have hpc : (EmailWorkflow.generate_response o (EmailWorkflow.retrieve_policies o
      (EmailWorkflow.process_single_email s))).processed_count = s.processed_count := by
    rw [h3.2.1, h2.2.1, h1.2.1]
  have hsr : (EmailWorkflow.generate_response o (EmailWorkflow.retrieve_policies o
      (EmailWorkflow.process_single_email s))).successful_responses = s.successful_responses := by
    rw [h3.2.2.1, h2.2.2.1, h1.2.2.1]
  have hfr : (EmailWorkflow.generate_response o (EmailWorkflow.retrieve_policies o
      (EmailWorkflow.process_single_email s))).failed_responses = s.failed_responses := by
    rw [h3.2.2.2.1, h2.2.2.2.1, h1.2.2.2.1]
  exact ⟨he, hpc, hsr, by rw [hfr], hg3, rfl⟩

theorem runFrom_proj (o : Oracles) :
    ∀ (fuel : Nat) (s : WorkflowState),
      s.generated_response = none →
      s.processed_count ≤ s.emails.length →
      fuel = s.emails.length - s.processed_count + 1 →
      (EmailWorkflow.runFrom o fuel s).successful_responses = s.successful_responses ∧
      (EmailWorkflow.runFrom o fuel s).failed_responses =
        s.failed_responses + (s.emails.length - s.processed_count) + 1 ∧
      (EmailWorkflow.runFrom o fuel s).last_error = some "Missing email or response for sending" ∧
      (EmailWorkflow.runFrom o fuel s).emails = s.emails := by
  intro fuel
  induction fuel with
  | zero => intro s hg hle hfuel; omega
  | succ f ih =>
    intro s hg hle hfuel
    have hl := loopStep_proj o s hg
    by_cases hc : EmailWorkflow.should_continue_processing (EmailWorkflow.loopStep o s) = true
    · have hrun : EmailWorkflow.runFrom o (f + 1) s =
          EmailWorkflow.runFrom o f (EmailWorkflow.next_email (EmailWorkflow.loopStep o s)) := by
        simp only [EmailWorkflow.runFrom]
        rw [if_pos hc]
      have hcount : s.processed_count < s.emails.length := by
        unfold EmailWorkflow.should_continue_processing at hc
        rw [hl.2.1, hl.1] at hc
        exact of_decide_eq_true hc
      have hnext := ih (EmailWorkflow.next_email (EmailWorkflow.loopStep o s))
        (by simp [EmailWorkflow.next_email])
        (by simp [EmailWorkflow.next_email, hl.2.1, hl.1]; omega)
        (by simp [EmailWorkflow.next_email, hl.2.1, hl.1]; omega)
      have hne : (EmailWorkflow.next_email (EmailWorkflow.loopStep o s)).emails = s.emails := by
        simp [EmailWorkflow.next_email, hl.1]
      have hnc : (EmailWorkflow.next_email (EmailWorkflow.loopStep o s)).processed_count =
          s.processed_count + 1 := by
        simp [EmailWorkflow.next_email, hl.2.1]
      have hns : (EmailWorkflow.next_email (EmailWorkflow.loopStep o s)).successful_responses =
          s.successful_responses := by
        simp [EmailWorkflow.next_email, hl.2.2.1]
      have hnf : (EmailWorkflow.next_email (EmailWorkflow.loopStep o s)).failed_responses =
          s.failed_responses + 1 := by
        simp [EmailWorkflow.next_email, hl.2.2.2.1]
      refine ⟨?_, ?_, ?_, ?_⟩
      · rw [hrun, hnext.1, hns]
      · rw [hrun, hnext.2.1, hnf, hne, hnc]; omega
      · rw [hrun]; exact hnext.2.2.1
      · rw [hrun, hnext.2.2.2, hne]
    · have hrun : EmailWorkflow.runFrom o (f + 1) s =
          EmailWorkflow.finalize_processing (EmailWorkflow.loopStep o s) := by
        simp only [EmailWorkflow.runFrom]
        rw [if_neg hc]
      have hcount : s.processed_count = s.emails.length := by
        unfold EmailWorkflow.should_continue_processing at hc
        rw [hl.2.1, hl.1] at hc
        simp at hc
        omega
      refine ⟨?_, ?_, ?_, ?_⟩
      · rw [hrun]
        show (EmailWorkflow.loopStep o s).successful_responses = s.successful_responses
        exact hl.2.2.1
      · rw [hrun]
        show (EmailWorkflow.loopStep o s).failed_responses =
          s.failed_responses + (s.emails.length - s.processed_count) + 1
        rw [hl.2.2.2.1, hcount]
        omega
      · rw [hrun]
        show (EmailWorkflow.loopStep o s).last_error = some "Missing email or response for sending"
        exact hl.2.2.2.2.2
      · rw [hrun]
        show (EmailWorkflow.loopStep o s).emails = s.emails
        exact hl.1

theorem loopStep_transport (o : Oracles) (t1 t2 : EmailData → Except String Bool)
    (s : WorkflowState) (hg : s.generated_response = none) :
    EmailWorkflow.loopStep { o with transport := t1 } s =
      EmailWorkflow.loopStep { o with transport := t2 } s := by
  have h1 := process_single_email_proj s
  have h2 := retrieve_policies_proj { o with transport := t1 }
    (EmailWorkflow.process_single_email s)
  have h3 := generate_response_proj { o with transport := t1 }
    (EmailWorkflow.retrieve_policies { o with transport := t1 }
      (EmailWorkflow.process_single_email s))
  have hg3 : (EmailWorkflow.generate_response { o with transport := t1 }
      (EmailWorkflow.retrieve_policies { o with transport := t1 }
        (EmailWorkflow.process_single_email s))).generated_response = none := by
    apply h3.2.2.2.2
    rw [h2.2.2.2.2, h1.2.2.2.2]
    exact hg
  have hg3' : (EmailWorkflow.generate_response { o with transport := t2 }
      (EmailWorkflow.retrieve_policies { o with transport := t2 }
        (EmailWorkflow.process_single_email s))).generated_response = none := hg3
  have e1 := send_response_missing { o with transport := t1 }
    (EmailWorkflow.generate_response { o with transport := t1 }
      (EmailWorkflow.retrieve_policies { o with transport := t1 }
        (EmailWorkflow.process_single_email s))) hg3
  have e2 := send_response_missing { o with transport := t2 }
    (EmailWorkflow.generate_response { o with transport := t2 }
      (EmailWorkflow.retrieve_policies { o with transport := t2 }
        (EmailWorkflow.process_single_email s))) hg3'
  exact e1.trans e2.symm

theorem runFrom_transport (o : Oracles) (t1 t2 : EmailData → Except String Bool) :
    ∀ (fuel : Nat) (s : WorkflowState), s.generated_response = none →
      EmailWorkflow.runFrom { o with transport := t1 } fuel s =
        EmailWorkflow.runFrom { o with transport := t2 } fuel s := by
  intro fuel
  induction fuel with
  | zero => intro s _; rfl
  | succ f ih =>
    intro s hg
    have hstep := loopStep_transport o t1 t2 s hg
    simp only [EmailWorkflow.runFrom]
    rw [hstep]
    by_cases hc : EmailWorkflow.should_continue_processing
        (EmailWorkflow.loopStep { o with transport := t2 } s) = true
    · rw [if_pos hc, if_pos hc]
      exact ih (EmailWorkflow.next_email (EmailWorkflow.loopStep { o with transport := t2 } s)) rfl
    · rw [if_neg hc, if_neg hc]

/-- The final state of a run over a non-empty fetched batch: 0 successes,
one `SEND` failure per email plus one for the ghost pass, and the ghost
pass's error left in `last_error`. -/
theorem process_emails_run (o : Oracles) (emails : List EmailData)
    (hf : o.fetchResult = Except.ok emails) (hne : emails ≠ []) :
    (EmailWorkflow.process_emails o).successful_responses = 0 ∧
    (EmailWorkflow.process_emails o).failed_responses = emails.length + 1 ∧
    (EmailWorkflow.process_emails o).last_error = some "Missing email or response for sending" ∧
    (EmailWorkflow.process_emails o).total_emails = emails.length := by
  have hs1 : EmailWorkflow.fetch_emails o EmailWorkflow.initialState =
      { emails := emails, current_email := none, processed_count := 0,
        successful_responses := 0, failed_responses := 0, intent := none,
        relevant_docs := [], generated_response := none, send_result := none,
        last_error := none,
        processing_log := ["Fetched " ++ toString emails.length ++ " unread emails"] } := by
    unfold EmailWorkflow.fetch_emails
    rw [hf]
    rfl
  have hsp : EmailWorkflow.should_process_emails
      { emails := emails, current_email := none, processed_count := 0,
        successful_responses := 0, failed_responses := 0, intent := none,
        relevant_docs := [], generated_response := none, send_result := none,
        last_error := none,
        processing_log := ["Fetched " ++ toString emails.length ++ " unread emails"] } = true := by
    unfold EmailWorkflow.should_process_emails
    cases emails with
    | nil => exact absurd rfl hne
    | cons e rest => rfl
  have hrun := runFrom_proj o (emails.length + 1)
    { emails := emails, current_email := none, processed_count := 0,
      successful_responses := 0, failed_responses := 0, intent := none,
      relevant_docs := [], generated_response := none, send_result := none,
      last_error := none,
      processing_log := ["Fetched " ++ toString emails.length ++ " unread emails"] }
    rfl (Nat.zero_le _) (by simp)
  simp only [EmailWorkflow.process_emails, hs1]
  rw [if_pos hsp]
  refine ⟨?_, ?_, ?_, ?_⟩
  · exact hrun.1
  · rw [hrun.2.1]; simp
  · exact hrun.2.2.1
  · rw [hrun.2.2.2]

/-- C2: with a current email present, the GENERATE node's
`current_email.sender_name` read raises `AttributeError` (recorded in
`last_error`) and leaves `generated_response = None`; consequently every
run ends with 0 successful responses, and the run result does not depend
on the transport at all (the send operation is never invoked). -/
theorem claim_C2_generation_always_fails :
    (∀ (o : Oracles) (s : WorkflowState) (ce : EmailData),
       s.current_email = some ce →
       (EmailWorkflow.generate_response o s).generated_response = none ∧
       (EmailWorkflow.generate_response o s).last_error =
         some "Failed to generate response: AttributeError: 'EmailData' object has no attribute 'sender_name'") ∧
    (∀ o : Oracles, (EmailWorkflow.process_emails o).successful_responses = 0) ∧
    (∀ (o : Oracles) (t1 t2 : EmailData → Except String Bool),
       EmailWorkflow.process_emails { o with transport := t1 } =
         EmailWorkflow.process_emails { o with transport := t2 }) ∧
    (∀ (o : Oracles) (s : WorkflowState), s.generated_response = none →
       (EmailWorkflow.loopStep o s).successful_responses = s.successful_responses) := by
  refine ⟨?_, ?_, ?_, ?_⟩
  · intro o s ce h
    rw [generate_response_of_some o s ce h]
    exact ⟨rfl, rfl⟩
  · intro o
    cases hf : o.fetchResult with
    | error e =>
      simp only [EmailWorkflow.process_emails]
      unfold EmailWorkflow.fetch_emails
      rw [hf]
      rfl
    | ok emails =>
      cases emails with
      | nil =>
        simp only [EmailWorkflow.process_emails]
        unfold EmailWorkflow.fetch_emails
        rw [hf]
        rfl
      | cons e rest =>
        exact (process_emails_run o (e :: rest) hf (List.cons_ne_nil e rest)).1
  · intro o t1 t2
    have hg : (EmailWorkflow.fetch_emails { o with transport := t2 }
        EmailWorkflow.initialState).generated_response = none := by
      cases hf : ({ o with transport := t2 } : Oracles).fetchResult with
      | ok emails => rfl
      | error e => rfl
    have hrt := runFrom_transport o t1 t2
      ((EmailWorkflow.fetch_emails { o with transport := t2 }
        EmailWorkflow.initialState).emails.length + 1)
      (EmailWorkflow.fetch_emails { o with transport := t2 } EmailWorkflow.initialState) hg
    have hfeq : EmailWorkflow.fetch_emails { o with transport := t1 }
        EmailWorkflow.initialState =
        EmailWorkflow.fetch_emails { o with transport := t2 } EmailWorkflow.initialState := rfl
    simp only [EmailWorkflow.process_emails]
    rw [hfeq, hrt]
  · intro o s hg
    exact (loopStep_proj o s hg).2.2.1

/-- Witness for C2: a concrete state with a current email loses its
generated response in GENERATE, and a concrete one-email run ends with 0
successful responses. -/
theorem claim_C2_generation_always_fails_witness :
    (EmailWorkflow.generate_response
      { fetchResult := Except.ok [], retrieverReady := false, topK := 5, llmResp := none,
        retrieval := fun _ => Except.ok [], generated := fun _ => Except.ok none,
        transport := fun _ => Except.ok true }
      { emails := [⟨"1", "Hi", "Ann", "ann@example.com", "Hello", 0, "t", []⟩],
        current_email := some ⟨"1", "Hi", "Ann", "ann@example.com", "Hello", 0, "t", []⟩,
        processed_count := 0, successful_responses := 0, failed_responses := 0,
        intent := none, relevant_docs := [], generated_response := none,
        send_result := none, last_error := none,
        processing_log := [] }).generated_response = none ∧
    (EmailWorkflow.process_emails
      { fetchResult := Except.ok [⟨"1", "Hi", "Ann", "ann@example.com", "Hello", 0, "t", []⟩],
        retrieverReady := true, topK := 5, llmResp := none,
        retrieval := fun _ => Except.ok [], generated := fun _ => Except.ok none,
        transport := fun _ => Except.ok true }).successful_responses = 0 := by
  exact ⟨(claim_C2_generation_always_fails.1 _ _
    ⟨"1", "Hi", "Ann", "ann@example.com", "Hello", 0, "t", []⟩ rfl).1,
    claim_C2_generation_always_fails.2.1 _⟩

/-- C3: the continue/complete decision after SEND reads the cursor
before `_next_email` increments it, so after the pass over the last real
email it still says "continue"; the run therefore executes one extra
pass whose SEND fails with "Missing email or response for sending",
leaving `failed_responses = n + 1` and that message as the run's
`last_error` for every non-empty batch of n emails. -/
theorem claim_C3_extra_pass :
    (∀ (o : Oracles) (s : WorkflowState),
       s.generated_response = none →
       s.processed_count + 1 = s.emails.length →
       EmailWorkflow.should_continue_processing (EmailWorkflow.loopStep o s) = true) ∧
    (∀ (o : Oracles) (emails : List EmailData),
       o.fetchResult = Except.ok emails → emails ≠ [] →
       (EmailWorkflow.process_emails o).failed_responses = emails.length + 1 ∧
       (EmailWorkflow.process_emails o).last_error =
         some "Missing email or response for sending" ∧
       (EmailWorkflow.process_emails o).total_emails = emails.length ∧
       (EmailWorkflow.process_emails o).successful_responses = 0) := by
  constructor
  · intro o s hg hcount
    have hl := loopStep_proj o s hg
    unfold EmailWorkflow.should_continue_processing
    rw [hl.2.1, hl.1]
    simp
    omega
  · intro o emails hf hne
    have h := process_emails_run o emails hf hne
    exact ⟨h.2.1, h.2.2.1, h.2.2.2, h.1⟩

/-- Witness for C3: a concrete single-email batch yields 2 SEND failures
(one real pass, one ghost pass) and the ghost pass's error message. -/
theorem claim_C3_extra_pass_witness :
    (EmailWorkflow.process_emails
      { fetchResult := Except.ok [⟨"1", "Hi", "Ann", "ann@example.com", "Hello", 0, "t", []⟩],
        retrieverReady := true, topK := 5, llmResp := none,
        retrieval := fun _ => Except.ok [], generated := fun _ => Except.ok none,
        transport := fun _ => Except.ok true }).failed_responses = 1 + 1 ∧
    (EmailWorkflow.process_emails
      { fetchResult := Except.ok [⟨"1", "Hi", "Ann", "ann@example.com", "Hello", 0, "t", []⟩],
        retrieverReady := true, topK := 5, llmResp := none,
        retrieval := fun _ => Except.ok [], generated := fun _ => Except.ok none,
        transport := fun _ => Except.ok true }).last_error =
      some "Missing email or response for sending" := by
  have h := claim_C3_extra_pass.2
    { fetchResult := Except.ok [⟨"1", "Hi", "Ann", "ann@example.com", "Hello", 0, "t", []⟩],
      retrieverReady := true, topK := 5, llmResp := none,
      retrieval := fun _ => Except.ok [], generated := fun _ => Except.ok none,
      transport := fun _ => Except.ok true }
    [⟨"1", "Hi", "Ann", "ann@example.com", "Hello", 0, "t", []⟩] rfl (by decide)
  exact ⟨h.1, h.2.1⟩

/-! ## Helper lemmas: the stable descending sort of the re-ranker -/

theorem mem_insertDesc (p x : Nat × Document) (l : List (Nat × Document)) :
    x ∈ PolicyRetriever.insertDesc p l ↔ x = p ∨ x ∈ l := by
  induction l with
  | nil => simp [PolicyRetriever.insertDesc]
  | cons q rest ih =>
    by_cases hq : q.1 ≥ p.1
    · simp [PolicyRetriever.insertDesc, hq, ih]
      tauto
    · simp [PolicyRetriever.insertDesc, hq]

theorem insertDesc_length (p : Nat × Document) (l : List (Nat × Document)) :
    (PolicyRetriever.insertDesc p l).length = l.length + 1 := by
  induction l with
  | nil => rfl
  | cons q rest ih =>
    by_cases hq : q.1 ≥ p.1
    · simp [PolicyRetriever.insertDesc, hq, ih]
    · simp [PolicyRetriever.insertDesc, hq]

theorem insertDesc_sorted (p : Nat × Document) (l : List (Nat × Document))
    (h : List.Pairwise (fun a b : Nat × Document => b.1 ≤ a.1) l) :
    List.Pairwise (fun a b : Nat × Document => b.1 ≤ a.1) (PolicyRetriever.insertDesc p l) := by
  induction l with
  | nil => simp [PolicyRetriever.insertDesc]
  | cons q rest ih =>
    rcases List.pairwise_cons.mp h with ⟨hq_all, hrest⟩
    by_cases hq : q.1 ≥ p.1
    · simp only [PolicyRetriever.insertDesc, if_pos hq]
      refine List.pairwise_cons.mpr ⟨?_, ih hrest⟩
      intro x hx
      rcases (mem_insertDesc p x rest).mp hx with hxp | hxr
      · rw [hxp]; exact hq
      · exact hq_all x hxr
    · simp only [PolicyRetriever.insertDesc, if_neg hq]
      refine List.pairwise_cons.mpr ⟨?_, h⟩
      intro x hx
      rcases List.mem_cons.mp hx with hxq | hxr
      · rw [hxq]; omega
      · exact le_trans (hq_all x hxr) (by omega)

theorem insertDesc_filter (p : Nat × Document) (l : List (Nat × Document)) (s : Nat)
    (h : List.Pairwise (fun a b : Nat × Document => b.1 ≤ a.1) l) :
    (PolicyRetriever.insertDesc p l).filter (fun q => q.1 == s) =
      l.filter (fun q => q.1 == s) ++ (if p.1 == s then [p] else []) := by
  induction l with
  | nil =>
    by_cases hp : p.1 == s
    · simp [PolicyRetriever.insertDesc, hp]
    · simp [PolicyRetriever.insertDesc, hp]
  | cons q rest ih =>
    rcases List.pairwise_cons.mp h with ⟨hq_all, hrest⟩
    by_cases hq : q.1 ≥ p.1
    · simp only [PolicyRetriever.insertDesc, if_pos hq]
      by_cases hqs : q.1 == s
      · simp [List.filter_cons, hqs, ih hrest]
      · simp [List.filter_cons, hqs, ih hrest]
    · simp only [PolicyRetriever.insertDesc, if_neg hq]
      by_cases hps : p.1 == s
      · have hps' : p.1 = s := by simpa using hps
        have hnone : (q :: rest).filter (fun x => x.1 == s) = [] := by
          rw [List.filter_eq_nil_iff]
          intro x hx
          rcases List.mem_cons.mp hx with hxq | hxr
          · subst hxq; simp; omega
          · have := hq_all x hxr; simp; omega
        rw [List.filter_cons, if_pos (by simpa using hps)]
        rw [hnone]
        simp [hps]
      · rw [List.filter_cons, if_neg (by simpa using hps)]
        simp [hps]

theorem foldl_insertDesc_length (l acc : List (Nat × Document)) :
    (l.foldl (fun acc p => PolicyRetriever.insertDesc p acc) acc).length =
      acc.length + l.length := by
  induction l generalizing acc with
  | nil => simp
  | cons p rest ih =>
    rw [List.foldl_cons, ih, insertDesc_length]
    simp [List.length_cons]
    omega

theorem foldl_insertDesc_sorted (l : List (Nat × Document)) :
    ∀ acc, List.Pairwise (fun a b : Nat × Document => b.1 ≤ a.1) acc →
      List.Pairwise (fun a b : Nat × Document => b.1 ≤ a.1)
        (l.foldl (fun acc p => PolicyRetriever.insertDesc p acc) acc) := by
  induction l with
  | nil => intro acc h; exact h
  | cons p rest ih =>
    intro acc h
    rw [List.foldl_cons]
    exact ih _ (insertDesc_sorted p acc h)

theorem foldl_insertDesc_filter (s : Nat) (l : List (Nat × Document)) :
    ∀ acc, List.Pairwise (fun a b : Nat × Document => b.1 ≤ a.1) acc →
      (l.foldl (fun acc p => PolicyRetriever.insertDesc p acc) acc).filter (fun q => q.1 == s) =
        acc.filter (fun q => q.1 == s) ++ l.filter (fun q => q.1 == s) := by
  induction l with
  | nil => intro acc _; simp
  | cons p rest ih =>
    intro acc h
    rw [List.foldl_cons, ih _ (insertDesc_sorted p acc h), insertDesc_filter p acc s h]
    by_cases hps : p.1 == s
    · simp [List.filter_cons, hps]
    · simp [List.filter_cons, hps]

/-! ## Claim about re-ranking (C9) -/

/-- C9: the re-ranker's sort is a stable descending sort — for every
score, the sub-list of fragments with that score is exactly the one from
the input, in the original order; the result is sorted by score
descending; `rank_documents_by_intent` truncates to the configured
maximum result count; and on the two-fragment billing example the
matching fragment ranks first. -/
theorem claim_C9_stable_ranking :
    (∀ (l : List (Nat × Document)) (s : Nat),
       (PolicyRetriever.stableSortDesc l).filter (fun q => q.1 == s) =
         l.filter (fun q => q.1 == s)) ∧
    (∀ l : List (Nat × Document),
       List.Pairwise (fun a b : Nat × Document => b.1 ≤ a.1)
         (PolicyRetriever.stableSortDesc l)) ∧
    (∀ (topK : Nat) (documents : List Document) (intent : String),
       (PolicyRetriever.rank_documents_by_intent topK documents intent).length =
         min topK documents.length) ∧
    PolicyRetriever.rank_documents_by_intent 5
        [⟨"no match", "x.md"⟩, ⟨"billing refund", "y.md"⟩] "billing" =
      [⟨"billing refund", "y.md"⟩, ⟨"no match", "x.md"⟩] := by
  refine ⟨?_, ?_, ?_, ?_⟩
  · intro l s
    have h := foldl_insertDesc_filter s l [] List.Pairwise.nil
    simpa [PolicyRetriever.stableSortDesc] using h
  · intro l
    exact foldl_insertDesc_sorted l [] List.Pairwise.nil
  · intro topK documents intent
    cases hd : documents with
    | nil => simp [PolicyRetriever.rank_documents_by_intent]
    | cons d rest =>
      have hne : ((d :: rest : List Document)).isEmpty = false := rfl
      have hlen : (PolicyRetriever.stableSortDesc ((d :: rest).map (fun doc =>
          (PolicyRetriever.docScore
            ((assocFind IntentClassifier.INTENTS intent).getD []) doc, doc)))).length =
          (d :: rest).length := by
        unfold PolicyRetriever.stableSortDesc
        rw [foldl_insertDesc_length]
        simp
      simp only [PolicyRetriever.rank_documents_by_intent, hne, Bool.false_eq_true, if_false,
        List.length_map, List.length_take, hlen]
      omega
  · rfl

/-! ## Claim about the intent classifier (C8) -/

theorem kwScore_pos (l : List String) (t : String) (h : ∃ kw ∈ l, containsSub t kw = true) :
    0 < IntentClassifier.kwScore l t := by
  obtain ⟨kw, hkw, hc⟩ := h
  unfold IntentClassifier.kwScore
  rw [List.length_pos]
  intro hnil
  rw [List.filter_eq_nil_iff] at hnil
  exact absurd hc (by simpa using hnil kw hkw)

/-- C8: whenever the lower-cased subject+body contains at least one
intent keyword, `classify_intent` agrees with the spec's rule — highest
keyword count wins, ties broken by declaration order (billing, then
technical_support, then feature_request, then general) — and in
particular "Refund request" / "please help" classifies as billing with
no generative fallback configured. -/
theorem claim_C8_keyword_priority :
    (∀ (email_subject email_body : String) (llmResp : Option String),
       (∃ p ∈ IntentClassifier.INTENTS, ∃ kw ∈ p.2,
          containsSub (pyLower (email_subject ++ " " ++ email_body)) kw = true) →
       IntentClassifier.classify_intent email_subject email_body llmResp =
         IntentClassifier.specClassify email_subject email_body) ∧
    IntentClassifier.classify_intent "Refund request" "please help" none = "billing" := by
  constructor
  · intro subject body llm h
    set T := pyLower (subject ++ " " ++ body) with hT
    set a := IntentClassifier.kwScore
      ["billing", "payment", "invoice", "refund", "subscription", "charge", "cost", "price"] T with hA
    set b := IntentClassifier.kwScore
      ["error", "bug", "problem", "issue", "broken", "not working", "help", "technical"] T with hB
    set c := IntentClassifier.kwScore
      ["feature", "request", "suggestion", "improvement", "new", "add", "enhancement"] T with hC
    set d := IntentClassifier.kwScore
      ["question", "info", "information", "contact", "hours", "address", "about"] T with hD
    have hpos : 0 < a ∨ 0 < b ∨ 0 < c ∨ 0 < d := by
      obtain ⟨p, hp, hkw⟩ := h
      fin_cases hp
      · exact Or.inl (kwScore_pos _ _ (by simpa using hkw))
      · exact Or.inr (Or.inl (kwScore_pos _ _ (by simpa using hkw)))
      · exact Or.inr (Or.inr (Or.inl (kwScore_pos _ _ (by simpa using hkw))))
      · exact Or.inr (Or.inr (Or.inr (kwScore_pos _ _ (by simpa using hkw))))
    simp only [IntentClassifier.classify_intent, IntentClassifier.specClassify,
      IntentClassifier.INTENTS, IntentClassifier.maxKeyByVal, ← hT, ← hA, ← hB, ← hC, ← hD]
    rcases Nat.eq_zero_or_pos a with ha | ha <;>
      rcases Nat.eq_zero_or_pos b with hb | hb <;>
        rcases Nat.eq_zero_or_pos c with hc | hc <;>
          rcases Nat.eq_zero_or_pos d with hd | hd <;>
            simp_all [List.filterMap_cons, List.filterMap_nil, gt_iff_lt, Nat.lt_irrefl,
              IntentClassifier.maxKeyByVal] <;>
            split_ifs <;>
            first | rfl | omega
  · rfl

/-- Witness for C8: the "Refund request" / "please help" input contains
keywords ("refund", "request", "help"), and the classifier agrees with
the spec rule there, yielding billing. -/
theorem claim_C8_keyword_priority_witness :
    IntentClassifier.classify_intent "Refund request" "please help" none =
      IntentClassifier.specClassify "Refund request" "please help" ∧
    IntentClassifier.specClassify "Refund request" "please help" = "billing" := by
  refine ⟨claim_C8_keyword_priority.1 "Refund request" "please help" none ?_, by rfl⟩
  refine ⟨("billing", ["billing", "payment", "invoice", "refund", "subscription", "charge",
    "cost", "price"]), by simp [IntentClassifier.INTENTS], "refund", by simp, by rfl⟩
